import Mathlib

/-!
Verification of the command-execution engine in `invoke/runners.py`.

The Python module is shallowly embedded here: Python unicode strings become
`List Char`, byte strings become `List Nat`, mutable per-instance state is
passed explicitly, and code that raises becomes `Option`- or `Except`-valued.
Each definition mirrors one function or method of the source file; the
theorems at the end of the file settle the specification claims about them.
-/

namespace Invoke

/-- Python unicode strings are modelled as lists of characters. -/
abbrev PyStr := List Char

/-- Fuel-driven core of `pyReplace`.  The fuel argument only forces structural
recursion; callers pass the length of the scanned list, which is always enough
fuel because every step consumes at least one element. -/
def pyReplaceAux (old new : PyStr) : Nat → PyStr → PyStr
  | _, [] => []
  | 0, s => s
  | fuel + 1, c :: rest =>
    if old ≠ [] ∧ old.isPrefixOf (c :: rest) then
      new ++ pyReplaceAux old new fuel ((c :: rest).drop old.length)
    else
      c :: pyReplaceAux old new fuel rest

/-- Model of Python `s.replace(old, new)` for a nonempty `old`: replace
non-overlapping occurrences of `old` left to right (runners.py only applies it
to the nonempty needles carriage-return and carriage-return/line-feed). -/
def pyReplace (old new s : PyStr) : PyStr :=
  pyReplaceAux old new s.length s

/-- Model of the WINDOWS "universal newlines" translation in `_run_body`
(runners.py lines 347-354): `s.replace("\r\n", "\n").replace("\r", "\n")`. -/
def nlNormalize (s : PyStr) : PyStr :=
  pyReplace (("\r").toList) (("\n").toList) (pyReplace (("\r\n").toList) (("\n").toList) s)

/-- Model of the `Result` class (runners.py lines 1154-1225): the immutable
outcome record of one command execution. -/
structure Result where
  command : PyStr
  shell : PyStr
  env : List (PyStr × PyStr)
  exited : Int
  return_code : Int
  stdout : PyStr
  stderr : PyStr
  pty : Bool
deriving DecidableEq

/-- Model of `Result.__init__`: stores its arguments and sets the
`return_code` alias to `exited`. -/
def Result.init (command shell : PyStr) (env : List (PyStr × PyStr))
    (stdout stderr : PyStr) (exited : Int) (pty : Bool) : Result :=
  { command := command, shell := shell, env := env, exited := exited,
    return_code := exited, stdout := stdout, stderr := stderr, pty := pty }

/-- Model of the `Result.ok` property: `exited == 0`. -/
def Result.ok (r : Result) : Bool := r.exited == 0

/-- Model of the `Result.failed` property: the inverse of `ok`. -/
def Result.failed (r : Result) : Bool := !r.ok

/-- Model of `Result.__nonzero__`: returns `self.ok`. -/
def Result.nonzero (r : Result) : Bool := r.ok

/-- Model of `Result.__bool__` (Python 3 truthiness): delegates to
`__nonzero__`. -/
def Result.toBool (r : Result) : Bool := r.nonzero

/-- The values the `hide` option can take: Python `None`, a boolean, or a
string. -/
inductive HideVal where
  | none
  | bool (b : Bool)
  | str (s : String)
deriving DecidableEq

/-- The tuple `hide_vals` from `normalize_hide` (runners.py line 1229). -/
def hideVals : List HideVal :=
  [HideVal.none, HideVal.bool false, HideVal.str ("out"), HideVal.str ("stdout"),
   HideVal.str ("err"), HideVal.str ("stderr"), HideVal.str ("both"), HideVal.bool true]

/-- Model of `normalize_hide` (runners.py lines 1228-1243).  A `none` result
models the `ValueError` raised for a value outside `hide_vals`. -/
def normalize_hide (val : HideVal) : Option (List String) :=
  if val ∉ hideVals then
    none
  else if val = HideVal.none ∨ val = HideVal.bool false then
    some []
  else if val = HideVal.str ("both") ∨ val = HideVal.bool true then
    some [("out"), ("err")]
  else if val = HideVal.str ("stdout") then
    some [("out")]
  else if val = HideVal.str ("stderr") then
    some [("err")]
  else
    match val with
    | HideVal.str s => some [s]
    | _ => some []

/-- Model of the hide/echo fragment of `Runner._run_opts` (runners.py lines
384-389): first, `echo` is forced off when `hide` is the boolean `True`
(Python `opts["hide"] is True`); then `hide` is normalized. -/
def resolveEchoHide (hide : HideVal) (echo : Bool) : Option (Bool × List String) :=
  let echo := if hide = HideVal.bool true then false else echo
  match normalize_hide hide with
  | some h => some (echo, h)
  | Option.none => Option.none

/-- Model of the option-merging loop of `Runner._run_opts` (runners.py lines
379-382): for every key of the configured defaults, take the caller-provided
value unless it is absent or `None`, else the default.  Keys of `kwargs` that
are not configuration keys are left behind by `kwargs.pop` and never examined
(the TODO on line 383 records that validating them is unimplemented). -/
def mergeOpts {V : Type} (config : List (String × V)) (kwargs : List (String × Option V)) :
    List (String × V) :=
  config.map fun kv =>
    match List.lookup kv.1 kwargs with
    | some (some v) => (kv.1, v)
    | _ => kv

/-- The caller-supplied keys that match no configured option; `_run_opts`
silently ignores them. -/
def unknownKeys {V : Type} (config : List (String × V)) (kwargs : List (String × Option V)) :
    List String :=
  (kwargs.map fun kv => kv.1).filter fun k => (List.lookup k config).isNone

/-- The per-engine-instance state consulted by `Local.should_use_pty`: the
one-time pty-fallback warning flag set up in `Runner.__init__`. -/
structure LocalState where
  warned_about_pty_fallback : Bool
deriving DecidableEq

/-- Model of `Local.should_use_pty` (runners.py lines 883-893).  Returns the
pty decision, whether the fallback warning was written to `sys.stderr` during
this call, and the updated instance state. -/
def should_use_pty (st : LocalState) (pty fallback stdin_has_fileno : Bool) :
    Bool × Bool × LocalState :=
  if pty then
    if !stdin_has_fileno && fallback then
      if !st.warned_about_pty_fallback then
        (false, true, LocalState.mk true)
      else
        (false, false, st)
    else
      (true, false, st)
  else
    (false, false, st)

/-- The arguments of one `should_use_pty` invocation. -/
structure PtyCall where
  pty : Bool
  fallback : Bool
  fileno : Bool
deriving DecidableEq

/-- Run a sequence of `should_use_pty` invocations against one engine
instance, threading the warning flag; returns the per-call
`(use_pty, warning_emitted)` pairs and the final state. -/
def runPtyCalls (st : LocalState) : List PtyCall → List (Bool × Bool) × LocalState
  | [] => ([], st)
  | c :: rest =>
    let r := should_use_pty st c.pty c.fallback c.fileno
    let rest_ := runPtyCalls r.2.2 rest
    ((r.1, r.2.1) :: rest_.1, rest_.2)

/-- Number of fallback warnings emitted across a sequence of calls. -/
def countWarnings (outs : List (Bool × Bool)) : Nat :=
  outs.countP fun o => o.2

/-- Fuel-driven core of `findallCount` for nonempty patterns: counts
non-overlapping occurrences of `pat` left to right, exactly as `re.findall`
does for a pattern that is a literal string.  The fuel argument only forces
structural recursion; callers pass the length of the scanned list, which is
always enough fuel because every step consumes at least one element. -/
def findallCountAux (pat : PyStr) : Nat → PyStr → Nat
  | _, [] => 0
  | 0, _ => 0
  | fuel + 1, c :: rest =>
    if pat ≠ [] ∧ pat.isPrefixOf (c :: rest) then
      1 + findallCountAux pat fuel ((c :: rest).drop pat.length)
    else
      findallCountAux pat fuel rest

/-- Model of `len(re.findall(pat, s, re.S))` for a pattern that is a literal
string (the watchers in the claims use literal patterns): the number of
non-overlapping occurrences of `pat` in `s`; for the empty pattern,
`re.findall` returns one empty match at every position, i.e. `len(s) + 1`
matches. -/
def findallCount (pat s : PyStr) : Nat :=
  if pat = [] then s.length + 1 else findallCountAux pat s.length s

/-- Model of `Responder.pattern_matches` (runners.py lines 1076-1098) acting
on one cursor: scan only `stream[index:]`, and advance the cursor by the
length of that suffix exactly when at least one match was found.  Returns the
number of matches and the updated cursor. -/
def pattern_matches (pattern stream : PyStr) (index : Nat) : Nat × Nat :=
  let new_ := stream.drop index
  let n := findallCount pattern new_
  if n ≠ 0 then (n, index + new_.length) else (n, index)

/-- The per-thread state of a `Responder`: the scan cursor `index`
(initialized to `0` in `Responder.__init__`). -/
structure ResponderState where
  index : Nat
deriving DecidableEq

/-- Model of `Responder.submit` (runners.py lines 1100-1103): yield the
response string once per match found beyond the cursor, and thread the
updated cursor. -/
def Responder.submit (pattern response : PyStr) (st : ResponderState) (stream : PyStr) :
    List PyStr × ResponderState :=
  let pm := pattern_matches pattern stream st.index
  (List.replicate pm.1 response, ResponderState.mk pm.2)

/-- The data carried by the `ResponseFailure` exception: the responder's
pattern and failure sentinel (used by its message). -/
structure ResponseFailure where
  pattern : PyStr
  failure_sentinel : PyStr
deriving DecidableEq

/-- The per-thread state of a `FailingResponder`: the primary cursor, the
independent sentinel cursor, and the `tried` flag (all reset in
`FailingResponder.__init__` to `0`, `0`, `False`). -/
structure FRState where
  index : Nat
  failure_index : Nat
  tried : Bool
deriving DecidableEq

/-- Model of one full `FailingResponder.submit` call as consumed by
`Runner.respond` (runners.py lines 1120-1136).  Order of effects in the
source: `super().submit(stream)` builds a generator without running it; the
sentinel is scanned eagerly (advancing `failure_index` on a match); the call
raises `ResponseFailure` if `tried` was already set and the sentinel matched;
otherwise `tried` is set — unconditionally, because the generator object
returned by `super().submit` is always truthy — and the generator is then
drained by the caller, which runs the primary-pattern scan. -/
def FailingResponder.submit (pattern response failure_sentinel : PyStr)
    (st : FRState) (stream : PyStr) :
    Except ResponseFailure (List PyStr) × FRState :=
  let pmf := pattern_matches failure_sentinel stream st.failure_index
  if st.tried ∧ pmf.1 ≠ 0 then
    (Except.error (ResponseFailure.mk pattern failure_sentinel),
     { st with failure_index := pmf.2 })
  else
    let pm := pattern_matches pattern stream st.index
    (Except.ok (List.replicate pm.1 response),
     FRState.mk pm.2 pmf.2 true)

/-- A stream-text codec: consume one character's worth of bytes from the
front of the input, or fail on an invalid sequence. -/
structure Encoding where
  decodeOne : List Nat → Option (Char × Nat)

/-- The `errors` argument of Python `bytes.decode`. -/
inductive ErrorsMode where
  | strict
  | replace

/-- The data carried by a `UnicodeDecodeError`: the offending byte. -/
structure DecodeError where
  byte : Nat
deriving DecidableEq

/-- Fuel-driven core of `bytesDecode`: decode characters off the front of the
byte list; on an invalid sequence either fail (`strict`) or emit U+FFFD and
skip one byte (`replace`), as Python codecs do.  Callers pass the input
length as fuel, which is always enough because real codecs consume at least
one byte per character. -/
def bytesDecodeAux (e : Encoding) (em : ErrorsMode) :
    Nat → List Nat → Except DecodeError (List Char)
  | _, [] => Except.ok []
  | 0, _ => Except.ok []
  | fuel + 1, b :: rest =>
    match e.decodeOne (b :: rest) with
    | some (c, n) =>
      match bytesDecodeAux e em fuel ((b :: rest).drop n) with
      | Except.ok s => Except.ok (c :: s)
      | Except.error err => Except.error err
    | Option.none =>
      match em with
      | ErrorsMode.strict => Except.error (DecodeError.mk b)
      | ErrorsMode.replace =>
        match bytesDecodeAux e em fuel rest with
        | Except.ok s => Except.ok (Char.ofNat 0xFFFD :: s)
        | Except.error err => Except.error err

/-- Model of Python `data.decode(encoding, errors)`. -/
def bytesDecode (e : Encoding) (em : ErrorsMode) (bs : List Nat) :
    Except DecodeError (List Char) :=
  bytesDecodeAux e em bs.length bs

/-- Model of `Runner.decode` (runners.py lines 744-750):
`data.decode(self.encoding, "replace")`. -/
def runnerDecode (e : Encoding) (data : List Nat) : Except DecodeError (List Char) :=
  bytesDecode e ErrorsMode.replace data

/-- A 7-bit ASCII codec, as a concrete `Encoding` instance. -/
def asciiEncoding : Encoding :=
  Encoding.mk fun bs =>
    match bs with
    | [] => Option.none
    | b :: _ => if b < 128 then some (Char.ofNat b, 1) else Option.none

/-- The inputs that determine one `Runner._run_body` execution after the
workers have been joined (runners.py lines 254-369): the resolved options,
the platform flag, whether `wait` was interrupted, the exceptions collected
from the worker threads, the decoded chunks each output-reader appended to
its capture buffer (when a pty is used the child's streams are merged and all
chunks arrive through the stdout reader; no stderr reader is spawned), and
the child's exit code reported by `returncode`. -/
structure RunSim where
  command : PyStr
  shell : PyStr
  env : List (PyStr × PyStr)
  warn : Bool
  usingPty : Bool
  windows : Bool
  interrupted : Bool
  workerErrors : List PyStr
  outChunks : List PyStr
  errChunks : List PyStr
  exited : Int
deriving DecidableEq

/-- The ways `_run_body` can finish: re-raise the interrupt caught during
`wait`, raise `ThreadException` aggregating worker exceptions, raise
`Failure` wrapping the result, or return the result. -/
inductive RunOutcome where
  | interruptRaised
  | threadExc (errors : List PyStr)
  | failureRaised (r : Result)
  | completed (r : Result)
deriving DecidableEq

/-- Model of the completion path of `Runner._run_body` (runners.py lines
300-369): after joining the workers, re-raise a pending interrupt, else raise
collected worker exceptions as `ThreadException`, else join each capture
buffer, apply the WINDOWS newline translation, build the `Result` with the
exit code from `returncode`, and raise `Failure` exactly when the result is
falsy and `warn` is off.  The stderr buffer stays empty under a pty because
no stderr worker is spawned (lines 286-291). -/
def runBody (sim : RunSim) : RunOutcome :=
  if sim.interrupted then
    RunOutcome.interruptRaised
  else if sim.workerErrors ≠ [] then
    RunOutcome.threadExc sim.workerErrors
  else
    let stdout := sim.outChunks.flatten
    let stderr := if sim.usingPty then [] else sim.errChunks.flatten
    let stdout := if sim.windows then nlNormalize stdout else stdout
    let stderr := if sim.windows then nlNormalize stderr else stderr
    let result := Result.init sim.command sim.shell sim.env stdout stderr sim.exited sim.usingPty
    if !(result.toBool || sim.warn) then
      RunOutcome.failureRaised result
    else
      RunOutcome.completed result

/-- The `Result` wrapped in the outcome, when one was built. -/
def resultOf : RunOutcome → Option Result
  | RunOutcome.failureRaised r => some r
  | RunOutcome.completed r => some r
  | _ => Option.none

/-- A concrete invocation whose child exits 3 with `warn` off. -/
def simExit3 : RunSim :=
  { command := ("exit 3").toList, shell := ("/bin/bash").toList, env := [],
    warn := false, usingPty := false, windows := false, interrupted := false,
    workerErrors := [], outChunks := [], errChunks := [], exited := 3 }

/-- A concrete pty-backed invocation producing one output chunk. -/
def simPty : RunSim :=
  { command := ("echo hi").toList, shell := ("/bin/bash").toList, env := [],
    warn := false, usingPty := true, windows := false, interrupted := false,
    workerErrors := [], outChunks := [("hi\n").toList], errChunks := [], exited := 0 }

/-- The result built by `runBody simPty`. -/
def resPty : Result :=
  Result.init (("echo hi").toList) (("/bin/bash").toList) [] (("hi\n").toList) [] 0 true

/-! ### Helper lemmas -/

theorem nlNormalize_nil : nlNormalize [] = [] := rfl

theorem pattern_matches_fst (p s : PyStr) (i : Nat) :
    (pattern_matches p s i).1 = findallCount p (s.drop i) := by
  simp only [pattern_matches]
  split <;> rfl

theorem pattern_matches_snd_pos (p s : PyStr) (i : Nat)
    (h : findallCount p (s.drop i) ≠ 0) :
    (pattern_matches p s i).2 = i + (s.drop i).length := by
  simp [pattern_matches, h]

theorem pattern_matches_snd_zero (p s : PyStr) (i : Nat)
    (h : findallCount p (s.drop i) = 0) :
    (pattern_matches p s i).2 = i := by
  simp [pattern_matches, h]

theorem findallCount_nil (p : PyStr) (hp : p ≠ []) : findallCount p [] = 0 := by
  simp [findallCount, hp, findallCountAux]

theorem resultOf_ite (c : Prop) [Decidable c] (x : Result) :
    resultOf (if c then RunOutcome.failureRaised x else RunOutcome.completed x) = some x := by
  split <;> rfl

theorem should_use_pty_state (b p f d : Bool) :
    (should_use_pty (LocalState.mk b) p f d).2.2 =
      LocalState.mk (b || (should_use_pty (LocalState.mk b) p f d).2.1) ∧
    ((should_use_pty (LocalState.mk b) p f d).2.1 = true → b = false) := by
  revert b p f d
  decide

theorem runPtyCalls_warned (calls : List PtyCall) :
    countWarnings (runPtyCalls (LocalState.mk true) calls).1 = 0 := by
  induction calls with
  | nil => rfl
  | cons c cs ih =>
    have h1 : (should_use_pty (LocalState.mk true) c.pty c.fallback c.fileno).2.1 = false := by
      cases hw : (should_use_pty (LocalState.mk true) c.pty c.fallback c.fileno).2.1
      · rfl
      · exact absurd ((should_use_pty_state true c.pty c.fallback c.fileno).2 hw) (by decide)
    have h2 : (should_use_pty (LocalState.mk true) c.pty c.fallback c.fileno).2.2 =
        LocalState.mk true := by
      rw [(should_use_pty_state true c.pty c.fallback c.fileno).1, h1]
      simp
    simp only [runPtyCalls, countWarnings, List.countP_cons, h1, h2] at ih ⊢
    simp [ih]

theorem runPtyCalls_warn_once (calls : List PtyCall) :
    ∀ b : Bool, countWarnings (runPtyCalls (LocalState.mk b) calls).1 ≤ 1 := by
  induction calls with
  | nil =>
    intro b
    simp [runPtyCalls, countWarnings]
  | cons c cs ih =>
    intro b
    cases hw : (should_use_pty (LocalState.mk b) c.pty c.fallback c.fileno).2.1 with
    | false =>
      have h2 := (should_use_pty_state b c.pty c.fallback c.fileno).1
      rw [hw] at h2
      simp only [Bool.or_false] at h2
      simp only [runPtyCalls, countWarnings, List.countP_cons, hw, h2]
      have := ih b
      simp only [countWarnings] at this
      simpa using this
    | true =>
      have h2 := (should_use_pty_state b c.pty c.fallback c.fileno).1
      rw [hw] at h2
      simp only [Bool.or_true] at h2
      simp only [runPtyCalls, countWarnings, List.countP_cons, hw, h2]
      have h0 := runPtyCalls_warned cs
      simp only [countWarnings] at h0
      simp [h0]

theorem bytesDecodeAux_replace_ok (e : Encoding) :
    ∀ (fuel : Nat) (bs : List Nat),
      ∃ s, bytesDecodeAux e ErrorsMode.replace fuel bs = Except.ok s := by
  intro fuel
  induction fuel with
  | zero =>
    intro bs
    cases bs with
    | nil => exact ⟨[], rfl⟩
    | cons b rest => exact ⟨[], rfl⟩
  | succ n ih =>
    intro bs
    cases bs with
    | nil => exact ⟨[], rfl⟩
    | cons b rest =>
      cases h : e.decodeOne (b :: rest) with
      | none =>
        obtain ⟨s, hs⟩ := ih rest
        exact ⟨Char.ofNat 0xFFFD :: s, by simp [bytesDecodeAux, h, hs]⟩
      | some cn =>
        obtain ⟨c, n'⟩ := cn
        obtain ⟨s, hs⟩ := ih ((b :: rest).drop n')
        exact ⟨c :: s, by simp [bytesDecodeAux, h, hs]⟩

/-! ### Claim theorems -/

/-- C1: on an invocation whose `wait` was not interrupted and whose workers
raised nothing, `_run_body` raises `Failure` wrapping a `Result` carrying the
child's real exit code exactly when the exit code is nonzero and `warn` is
off; in every other case it returns the `Result`, again with the real exit
code. -/
theorem run_raise_return_contract (sim : RunSim)
    (hni : sim.interrupted = false) (hnw : sim.workerErrors = []) :
    (sim.exited ≠ 0 ∧ sim.warn = false →
      ∃ r, runBody sim = RunOutcome.failureRaised r ∧ r.exited = sim.exited) ∧
    (sim.exited = 0 ∨ sim.warn = true →
      ∃ r, runBody sim = RunOutcome.completed r ∧ r.exited = sim.exited) := by
  obtain ⟨res, hres, hresx, hrestb⟩ :
      ∃ res, (runBody sim =
          if !(res.toBool || sim.warn) then RunOutcome.failureRaised res
          else RunOutcome.completed res) ∧
        res.exited = sim.exited ∧ res.toBool = (sim.exited == 0) := by
    refine ⟨Result.init sim.command sim.shell sim.env
        (if sim.windows then nlNormalize sim.outChunks.flatten else sim.outChunks.flatten)
        (if sim.windows then nlNormalize (if sim.usingPty then [] else sim.errChunks.flatten)
         else (if sim.usingPty then [] else sim.errChunks.flatten))
        sim.exited sim.usingPty, ?_, rfl, rfl⟩
    unfold runBody
    rw [hni, hnw]
    simp
  constructor
  · rintro ⟨hx, hw⟩
    have hb : (sim.exited == 0) = false := beq_eq_false_iff_ne.mpr hx
    rw [hres, hrestb, hb, hw]
    exact ⟨res, by simp, hresx⟩
  · intro hor
    have hcond : (!(res.toBool || sim.warn)) = false := by
      rcases hor with h0 | hw
      · rw [hrestb, beq_iff_eq.mpr h0]
        simp
      · rw [hw]
        simp
    rw [hres, hcond]
    exact ⟨res, by simp, hresx⟩

/-- C1 witness: the invocation `run("exit 3")` with `warn` off raises
`Failure` around a result whose `exited` is 3. -/
theorem run_raise_return_contract_witness :
    ∃ r, runBody simExit3 = RunOutcome.failureRaised r ∧ r.exited = simExit3.exited :=
  (run_raise_return_contract simExit3 rfl rfl).1 ⟨by decide, rfl⟩

/-- C2: for every constructed `Result`, `ok` holds iff the exit code is zero,
`failed` is the negation of `ok`, `return_code` equals `exited`, and Python
truthiness (`__bool__`) equals `ok`. -/
theorem result_invariants (command shell : PyStr) (env : List (PyStr × PyStr))
    (stdout stderr : PyStr) (exited : Int) (pty : Bool) :
    ((Result.init command shell env stdout stderr exited pty).ok = true ↔ exited = 0) ∧
    (Result.init command shell env stdout stderr exited pty).failed =
      !(Result.init command shell env stdout stderr exited pty).ok ∧
    (Result.init command shell env stdout stderr exited pty).return_code =
      (Result.init command shell env stdout stderr exited pty).exited ∧
    (Result.init command shell env stdout stderr exited pty).toBool =
      (Result.init command shell env stdout stderr exited pty).ok := by
  refine ⟨?_, rfl, rfl, rfl⟩
  simp [Result.init, Result.ok]

/-- C2 witness: the invariants evaluated on a concrete successful result. -/
theorem result_invariants_witness :
    (Result.init [] [] [] [] [] 0 false).ok = true ↔ (0 : Int) = 0 :=
  (result_invariants [] [] [] [] [] 0 false).1

/-- C3: whenever pty use is resolved to true, the `Result` that `_run_body`
returns or wraps in `Failure` has an empty `stderr`, and its `stdout` is the
concatenation of every chunk read from the (merged) output stream, modulo the
WINDOWS newline translation. -/
theorem pty_merges_streams (sim : RunSim) (hp : sim.usingPty = true) (r : Result)
    (hr : resultOf (runBody sim) = some r) :
    r.stderr = [] ∧
    r.stdout = (if sim.windows then nlNormalize sim.outChunks.flatten
                else sim.outChunks.flatten) := by
  cases hi : sim.interrupted with
  | true =>
    unfold runBody at hr
    rw [hi] at hr
    simp [resultOf] at hr
  | false =>
    cases hwe : sim.workerErrors with
    | cons x xs =>
      unfold runBody at hr
      rw [hi, hwe] at hr
      simp [resultOf] at hr
    | nil =>
      unfold runBody at hr
      rw [hi, hwe, hp] at hr
      simp only [Bool.false_eq_true, if_false, ne_eq, not_true_eq_false, if_true] at hr
      rw [resultOf_ite] at hr
      injection hr with hr
      subst hr
      exact ⟨by simp [Result.init, nlNormalize_nil, ite_self], rfl⟩

/-- C3 witness: a concrete pty invocation yields an empty `stderr`. -/
theorem pty_merges_streams_witness : resPty.stderr = [] :=
  (pty_merges_streams simPty rfl resPty rfl).1

/-- C4 (code bug witnessed): `FailingResponder.submit` evaluated at the
failing input.  The first submission matches neither pattern and emits no
response, yet leaves `tried` set, because the generator returned by
`super().submit` is always truthy; the second submission sees the sentinel in
new content and raises `ResponseFailure`, although no response was ever
emitted — contradicting the claim that it never raises before a response. -/
theorem failing_responder_premature_raise :
    (FailingResponder.submit (("password:").toList) (("secret").toList) (("FAIL").toList)
       (FRState.mk 0 0 false) (("x").toList)).1 = Except.ok [] ∧
    (FailingResponder.submit (("password:").toList) (("secret").toList) (("FAIL").toList)
       (FRState.mk 0 0 false) (("x").toList)).2 = FRState.mk 0 0 true ∧
    (FailingResponder.submit (("password:").toList) (("secret").toList) (("FAIL").toList)
       (FRState.mk 0 0 true) (("xFAIL").toList)).1 =
      Except.error (ResponseFailure.mk (("password:").toList) (("FAIL").toList)) :=
  ⟨rfl, rfl, rfl⟩

/-- C5 counterexample: a `Responder` whose pattern is the empty string (which
`re.findall` matches once at every position) yields a response again when the
identical stream is submitted a second time with no new content, refuting the
claim's no-duplicate consequence for arbitrary patterns. -/
theorem responder_empty_pattern_counterexample :
    (Responder.submit [] (("r").toList) (ResponderState.mk 0) (("a").toList)).1 =
      [("r").toList, ("r").toList] ∧
    (Responder.submit [] (("r").toList)
       (Responder.submit [] (("r").toList) (ResponderState.mk 0) (("a").toList)).2
       (("a").toList)).1 = [("r").toList] :=
  ⟨rfl, rfl⟩

/-- C5 (amended): each `submit` scans only the suffix beyond the cursor,
yields the response once per match found in that suffix, advances the cursor
past the scanned suffix exactly when at least one match was found, and leaves
the cursor unchanged with an empty yield otherwise; and for every pattern
that cannot match the empty string — here, any nonempty literal pattern —
submitting the identical stream a second time yields no further responses. -/
theorem responder_submit_contract (pattern response : PyStr) (st : ResponderState)
    (stream : PyStr) :
    ((Responder.submit pattern response st stream).1 =
       List.replicate (findallCount pattern (stream.drop st.index)) response ∧
     (findallCount pattern (stream.drop st.index) ≠ 0 →
       (Responder.submit pattern response st stream).2.index =
         st.index + (stream.drop st.index).length) ∧
     (findallCount pattern (stream.drop st.index) = 0 →
       (Responder.submit pattern response st stream).2 = st)) ∧
    (pattern ≠ [] →
      (Responder.submit pattern response
         (Responder.submit pattern response st stream).2 stream).1 = []) := by
  refine ⟨⟨?_, ?_, ?_⟩, ?_⟩
  · simp [Responder.submit, pattern_matches_fst]
  · intro h
    simp [Responder.submit, pattern_matches_snd_pos _ _ _ h]
  · intro h
    simp [Responder.submit, pattern_matches_snd_zero _ _ _ h]
  · intro hp
    by_cases h : findallCount pattern (stream.drop st.index) = 0
    · have h2 : (Responder.submit pattern response st stream).2 = st := by
        simp [Responder.submit, pattern_matches_snd_zero _ _ _ h]
      rw [h2]
      simp [Responder.submit, pattern_matches_fst, h]
    · have h2 : (pattern_matches pattern stream st.index).2 =
          st.index + (stream.drop st.index).length := pattern_matches_snd_pos _ _ _ h
      have hdrop : stream.drop ((pattern_matches pattern stream st.index).2) = [] := by
        rw [h2, ← List.length_eq_zero, List.length_drop, List.length_drop]
        omega
      simp [Responder.submit, pattern_matches_fst, hdrop, findallCount_nil _ hp]

/-- C5 witness: the spec's own scenario — a password prompt matched once,
then resubmitted unchanged, yields nothing the second time. -/
theorem responder_submit_contract_witness :
    (Responder.submit (("password:").toList) (("secret\n").toList)
       (Responder.submit (("password:").toList) (("secret\n").toList)
          (ResponderState.mk 0) (("Enter password:").toList)).2
       (("Enter password:").toList)).1 = [] :=
  (responder_submit_contract (("password:").toList) (("secret\n").toList)
     (ResponderState.mk 0) (("Enter password:").toList)).2 (by decide)

/-- C6 counterexample: with `hide="both"` — which normalizes to suppressing
both streams — and `echo=True`, `_run_opts` leaves echoing on, because the
source only checks `opts["hide"] is True`. -/
theorem hide_both_keeps_echo_counterexample :
    resolveEchoHide (HideVal.str ("both")) true = some (true, [("out"), ("err")]) := by
  decide

/-- C6 (amended): echoing of the command line is forced off exactly when the
`hide` option is the boolean `True`; `hide="both"` also selects both streams
for hiding but leaves the echo option unchanged. -/
theorem hide_true_forces_echo_off :
    (∀ echo : Bool,
      resolveEchoHide (HideVal.bool true) echo = some (false, [("out"), ("err")])) ∧
    (∀ echo : Bool,
      resolveEchoHide (HideVal.str ("both")) echo = some (echo, [("out"), ("err")])) := by
  constructor <;> (intro echo; cases echo <;> decide)

/-- C7: `normalize_hide` maps unset/`False` to no streams, `True`/`"both"` to
both streams, `"stdout"` to out and `"stderr"` to err, and it succeeds on
exactly the eight members of `hide_vals`, failing validation on every other
value. -/
theorem normalize_hide_contract :
    normalize_hide HideVal.none = some [] ∧
    normalize_hide (HideVal.bool false) = some [] ∧
    normalize_hide (HideVal.bool true) = some [("out"), ("err")] ∧
    normalize_hide (HideVal.str ("both")) = some [("out"), ("err")] ∧
    normalize_hide (HideVal.str ("stdout")) = some [("out")] ∧
    normalize_hide (HideVal.str ("stderr")) = some [("err")] ∧
    ∀ v : HideVal, (normalize_hide v).isSome = true ↔ v ∈ hideVals := by
  refine ⟨by decide, by decide, by decide, by decide, by decide, by decide, ?_⟩
  intro v
  by_cases hm : v ∈ hideVals
  · refine ⟨fun _ => hm, fun _ => ?_⟩
    rcases v with _ | b | s
    · decide
    · cases b <;> decide
    · simp only [hideVals, List.mem_cons, List.not_mem_nil, or_false] at hm
      simp only [HideVal.str.injEq, reduceCtorEq, false_or, or_false] at hm
      rcases hm with rfl | rfl | rfl | rfl | rfl <;> decide
  · have hnone : normalize_hide v = Option.none := by
      simp [normalize_hide, hm]
    simp [hnone, hm]

/-- C7 witness: `"stdout"` is accepted by the hide selector. -/
theorem normalize_hide_contract_witness :
    (normalize_hide (HideVal.str ("stdout"))).isSome = true :=
  (normalize_hide_contract.2.2.2.2.2.2 (HideVal.str ("stdout"))).mpr (by decide)

/-- C8 (code bug witnessed): option merging evaluated at a call carrying the
unrecognized key `nosuchopt`.  Every omitted option falls back to the
configured default and provided ones override it, but the unknown key is
silently dropped instead of failing — `_run_opts` never inspects the keys
left in `kwargs` (TODO on runners.py line 383). -/
theorem run_opts_unknown_key_ignored :
    mergeOpts [(("warn"), (0 : Int)), (("echo"), 1)]
        [(("echo"), some 5), (("nosuchopt"), some 9)] =
      [(("warn"), 0), (("echo"), 5)] ∧
    unknownKeys [(("warn"), (0 : Int)), (("echo"), 1)]
        [(("echo"), some 5), (("nosuchopt"), some 9)] = [("nosuchopt")] :=
  ⟨rfl, rfl⟩

/-- C9: `should_use_pty` returns false whenever pty was not requested; when
pty is requested, stdin has no usable descriptor and fallback is allowed, it
degrades to non-pty execution and emits the warning exactly if this instance
has not warned before; and across any sequence of invocations on one fresh
engine instance the warning is emitted at most once. -/
theorem should_use_pty_contract :
    (∀ (st : LocalState) (fb fd : Bool), should_use_pty st false fb fd = (false, false, st)) ∧
    (∀ b : Bool, should_use_pty (LocalState.mk b) true true false =
      (false, !b, LocalState.mk true)) ∧
    (∀ calls : List PtyCall, countWarnings (runPtyCalls (LocalState.mk false) calls).1 ≤ 1) := by
  refine ⟨fun st fb fd => rfl, by decide, fun calls => runPtyCalls_warn_once calls false⟩

/-- C10: `Runner.decode` — `bytes.decode(encoding, "replace")` — is total:
for every codec and every byte string it returns a decoded string and never
raises a decoding error, so an output-reader worker cannot fail on malformed
bytes. -/
theorem decode_total_on_bytes (e : Encoding) (data : List Nat) :
    ∃ s, runnerDecode e data = Except.ok s := by
  obtain ⟨s, hs⟩ := bytesDecodeAux_replace_ok e data.length data
  exact ⟨s, hs⟩

/-- Non-vacuity check for the decode model: the strict mode really can fail
where replacement succeeds. -/
theorem ascii_strict_vs_replace :
    bytesDecode asciiEncoding ErrorsMode.strict [104, 255] =
      Except.error (DecodeError.mk 255) ∧
    runnerDecode asciiEncoding [104, 255] =
      Except.ok [Char.ofNat 104, Char.ofNat 0xFFFD] :=
  ⟨rfl, rfl⟩

end Invoke
